import Mathlib

/-!
# Verification of fontmake-mp (`fmp.py`)

A shallow embedding of the single source file `fmp.py` of the
fontmake-mp repository, together with theorems settling the claims of
its specification.

The program compiles UFO font sources with an external compiler
(fontmake), dispatching one job per command-line path, either directly
(single path) or through a process pool.  The embedding models:

* `validatePath` — the per-path precondition checks of `main`
  (lines 88-114 of `fmp.py`);
* `build_fonts` — the per-job runner (lines 155-172), with the external
  compiler abstracted as a function `String → Option CompilerError`
  (`none` = success, `some e` = the exception caught by the
  `except Exception` handler);
* `dispatch` — the fast path / pool branch of `main` (lines 120-152);
* `main` — the whole entry point (lines 63-152), including the flag
  handling, the dead empty-list check, and the validation loop;
* `reportFailureHandler` — a finer-grained model of the except-handler
  of `build_fonts` (lines 159-172) in which each write statement may
  itself raise, used to examine the lock discipline.

Streams are modelled as lists of written strings (`stdout`, `stderr`);
process termination as a `MainResult` (a `sys.exit` code, or an
uncaught Python exception).  The quote characters that surround paths
in the original error messages are elided from the modelled text.
-/

namespace FontmakeMP

/-- Line 21 of `fmp.py`: `PROCESSES = 0` (0 means auto-detect). -/
def PROCESSES : Nat := 0

/-- `os.linesep`, appended by the source to its stderr messages. -/
def lineSep : String := "\n"

/-- The failure signalled by the external compiler call
`fp.run_from_ufos(...)`: the exception caught by `except Exception`,
carrying its message (`str(e)`) and its traceback text
(what `traceback.print_exc()` writes). -/
structure CompilerError where
  message : String
  traceback : String
deriving Repr, DecidableEq

/-- The per-job outcome of the specification data model: the job
runner finished for `sourcePath` with success flag `succeeded` and, on
failure, the diagnostic text it reported. -/
structure JobOutcome where
  sourcePath : String
  succeeded : Bool
  diagnostic : Option String
deriving Repr, DecidableEq

/-- The host environment of one invocation: the external compiler, the
filesystem query `os.path.isdir`, and `multiprocessing.cpu_count()`. -/
structure Env where
  compile : String → Option CompilerError
  isdir : String → Bool
  cpuCount : Nat

/-- How the process terminates: a `sys.exit(code)`, or an uncaught
Python exception (`IndexError` from `argv[0]` on an empty list,
`ValueError` from `Pool(0)`). -/
inductive MainResult where
  | exit (code : Nat)
  | indexError
  | valueError
deriving Repr, DecidableEq

/-- Observable trace of one invocation of `main`: termination kind,
the lines written to the two streams, the job outcomes produced, and
whether a pool was created (and its size).  `emptyListErrorReported`
records whether the dedicated empty-list error branch (lines 81-86)
executed. -/
structure MainTrace where
  result : MainResult
  stdout : List String
  stderr : List String
  outcomes : List JobOutcome
  poolCreated : Bool
  poolSize : Option Nat
  emptyListErrorReported : Bool
deriving Repr, DecidableEq

/-- Line 27: the version string. -/
def VERSION : String := "fontmake-mp v1.0.0"

/-- Line 28: the usage string. -/
def USAGE : String :=
  "[./fmp.py|fontmake-mp] (--ttf|--otf) [UFO file path 1] (UFO file path ...)"

/-- Lines 29-60: the help text.  Its exact content is immaterial to
every claim; it is abbreviated here. -/
def HELP : String := "fontmake-mp help text"

/-- Lines 82-85: the error message of the dedicated empty-list branch. -/
def emptyListMsg : String :=
  "[ERROR] Please include one or more paths to UFO source directories as arguments to the script."
    ++ lineSep

/-- Lines 90-95: message for a path shorter than 5 characters. -/
def malformedMsg (p : String) : String :=
  "[ERROR] " ++ p ++ " is not properly formatted as a path to a UFO source directory"
    ++ lineSep

/-- Lines 100-105: message for a path that does not end in `.ufo`. -/
def notUfoMsg (p : String) : String :=
  "[ERROR] " ++ p ++ " does not appear to be a UFO source directory" ++ lineSep

/-- Lines 108-113: message for a path that is not an existing directory. -/
def notDirMsg (p : String) : String :=
  "[ERROR] " ++ p ++ " does not appear to be a valid path to a UFO source directory"
    ++ lineSep

/-- Lines 88-114: the validation applied to one source path, in source
order: length below 5, then the `.ufo` suffix (`source_path[-4:]`),
then `os.path.isdir`.  Returns the stderr message of the first failing
check, or `none` when the path passes. -/
def validatePath (isdir : String → Bool) (p : String) : Option String :=
  if p.length < 5 then some (malformedMsg p)
  else if ¬ (p.takeRight 4 = ".ufo") then some (notUfoMsg p)
  else if ¬ isdir p then some (notDirMsg p)
  else none

/-- Lines 162-167: the header line printed (to stdout) for a failing
compile. -/
def diagnosticHeader (p : String) : String :=
  "[ERROR] The fontmake compile for " ++ p ++ " failed with the following error:"
    ++ lineSep

/-- Lines 155-172, `build_fonts`: run the compiler on one path; on any
caught exception, write the diagnostics (`print(" ")`, the header and
`print(str(e))` go to stdout; `traceback.print_exc()` goes to stderr)
and return normally.  Result: the job outcome of the specification
data model, the stdout writes, and the stderr writes.  Totality of
this function models the `except Exception` boundary: no compiler
failure propagates out of it. -/
def build_fonts (compile : String → Option CompilerError) (ufo_path : String) :
    JobOutcome × List String × List String :=
  match compile ufo_path with
  | none =>
      ({ sourcePath := ufo_path, succeeded := true, diagnostic := none }, [], [])
  | some e =>
      ({ sourcePath := ufo_path, succeeded := false,
         diagnostic := some (diagnosticHeader ufo_path ++ e.message) },
       [" ", diagnosticHeader ufo_path, e.message],
       [e.traceback])

/-- Lines 117-118: the two progress lines printed before dispatch. -/
def beginLines : List String :=
  [" ", "[*] Beginning fontmake-mp font compile..."]

/-- Lines 122-124: the fast-path progress line. -/
def singleMsg : String :=
  "[*] Single font compile requested. Concurrency is not necessary.  No additional processes spawned..."

/-- Line 132: the core-detection progress line. -/
def detectedMsg (c : Nat) : String :=
  "[*] Detected " ++ toString c ++ " cores..."

/-- Line 134: the progress line for a user-specified process count. -/
def spawningMsg (n : Nat) : String :=
  "[*] Spawning " ++ toString n ++ " processes for the compile..."

/-- Lines 139-142: the progress line when the process count is limited
to the job count. -/
def limitMsg (n : Nat) : String :=
  "[*] Limiting spawned process number to the number of font compiles needed ("
    ++ toString n ++ ")..."

/-- Lines 144-146: the out-of-order warning line. -/
def outOfOrderMsg : String :=
  "[*] Output from the fontmake compiler will appear out of order below. This is expected..."

/-- Lines 120-152: dispatch over the validated path list.  One path:
build it directly, no pool, `sys.exit(0)`.  Otherwise: derive the
process count (auto-detected cores, limited to the job count), create
the pool (`Pool(0)` raises `ValueError`), map `build_fonts` over every
path, `sys.exit(0)`. -/
def dispatch (env : Env) (source_path_list : List String) : MainTrace :=
  if source_path_list.length = 1 then
      let r := build_fonts env.compile (source_path_list.headD "")
      { result := .exit 0,
        stdout := beginLines ++ [singleMsg, " "] ++ r.2.1,
        stderr := r.2.2,
        outcomes := [r.1],
        poolCreated := false,
        poolSize := none,
        emptyListErrorReported := false }
  else
      let J := source_path_list.length
      let processes0 := if PROCESSES = 0 then env.cpuCount else PROCESSES
      let countLine := if PROCESSES = 0 then detectedMsg env.cpuCount else spawningMsg PROCESSES
      let limited := decide (J < processes0)
      let processes := if J < processes0 then J else processes0
      let limitLines := if limited then [limitMsg processes] else []
      let preamble := beginLines ++ [countLine] ++ limitLines ++ [outOfOrderMsg, " ", " "]
      if processes = 0 then
        { result := .valueError,
          stdout := preamble,
          stderr := [],
          outcomes := [],
          poolCreated := false,
          poolSize := none,
          emptyListErrorReported := false }
      else
        let results := source_path_list.map (build_fonts env.compile)
        { result := .exit 0,
          stdout := preamble ++ (results.map (fun r => r.2.1)).flatten,
          stderr := (results.map (fun r => r.2.2)).flatten,
          outcomes := results.map (fun r => r.1),
          poolCreated := true,
          poolSize := some processes,
          emptyListErrorReported := false }

/-- Lines 75-152 of `main`, after the flag handling: the (dead)
empty-list check, the validation loop (first failing path aborts with
exit status 1), then dispatch. -/
def mainAfterFlags (env : Env) (source_path_list : List String) : MainTrace :=
  if source_path_list.length = 0 then
    { result := .exit 1, stdout := [], stderr := [emptyListMsg],
      outcomes := [], poolCreated := false, poolSize := none,
      emptyListErrorReported := true }
  else
    match source_path_list.findSome? (validatePath env.isdir) with
    | some err =>
        { result := .exit 1, stdout := [], stderr := [err],
          outcomes := [], poolCreated := false, poolSize := none,
          emptyListErrorReported := false }
    | none => dispatch env source_path_list

/-- Lines 63-152, `main(argv)`: `argv[0]` is indexed unconditionally
for the flag checks, so an empty `argv` raises `IndexError` before
anything else runs; otherwise the flag branches exit 0, and the rest
of `main` follows. -/
def main (env : Env) (argv : List String) : MainTrace :=
  match argv with
  | [] =>
      { result := .indexError, stdout := [], stderr := [],
        outcomes := [], poolCreated := false, poolSize := none,
        emptyListErrorReported := false }
  | a0 :: _ =>
      if a0 = "-h" ∨ a0 = "--help" then
        { result := .exit 0, stdout := [HELP], stderr := [],
          outcomes := [], poolCreated := false, poolSize := none,
          emptyListErrorReported := false }
      else if a0 = "-v" ∨ a0 = "--version" then
        { result := .exit 0, stdout := [VERSION], stderr := [],
          outcomes := [], poolCreated := false, poolSize := none,
          emptyListErrorReported := false }
      else if a0 = "--usage" then
        { result := .exit 0, stdout := [USAGE], stderr := [],
          outcomes := [], poolCreated := false, poolSize := none,
          emptyListErrorReported := false }
      else
        mainAfterFlags env argv

/-- The trace of one execution of the except-handler of `build_fonts`
(lines 159-172): whether the lock is still held when the handler
exits, whether an exception escaped the handler, and how many of the
four write statements completed. -/
structure HandlerTrace where
  lockHeld : Bool
  raised : Bool
  writesDone : Nat
deriving Repr, DecidableEq

/-- Lines 159-172, the except-handler at statement granularity:
`lock.acquire()`, then four write statements (`print(" ")`, the header
`print`, `traceback.print_exc()`, `print(str(e))`), then
`lock.release()` — with no `try`/`finally` around the writes.
`writeFails i = true` means the i-th write statement raises; the
handler then exits immediately with the lock still held and the
exception propagating. -/
def reportFailureHandler (writeFails : Nat → Bool) : HandlerTrace :=
  if writeFails 0 then { lockHeld := true, raised := true, writesDone := 0 }
  else if writeFails 1 then { lockHeld := true, raised := true, writesDone := 1 }
  else if writeFails 2 then { lockHeld := true, raised := true, writesDone := 2 }
  else if writeFails 3 then { lockHeld := true, raised := true, writesDone := 3 }
  else { lockHeld := false, raised := false, writesDone := 4 }

/-- A host on which every compile succeeds and every path is a
directory. -/
def envOk : Env :=
  { compile := fun _ => none, isdir := fun _ => true, cpuCount := 4 }

/-- A host on which the compile of `b.ufo` fails with message
`bad glyph` and every other compile succeeds. -/
def envFail : Env :=
  { compile := fun p =>
      if p = "b.ufo" then some { message := "bad glyph", traceback := "Traceback" }
      else none,
    isdir := fun _ => true,
    cpuCount := 2 }

/-- The first argument is none of the flag strings consumed by the
flag handling at lines 65-73. -/
abbrev notFlag (a0 : String) : Prop :=
  a0 ≠ "-h" ∧ a0 ≠ "--help" ∧ a0 ≠ "-v" ∧ a0 ≠ "--version" ∧ a0 ≠ "--usage"

theorem main_cons_not_flag (env : Env) (a0 : String) (rest : List String)
    (h : notFlag a0) : main env (a0 :: rest) = mainAfterFlags env (a0 :: rest) := by
  obtain ⟨h1, h2, h3, h4, h5⟩ := h
  simp [main, h1, h2, h3, h4, h5]

theorem mainAfterFlags_all_valid (env : Env) (a0 : String) (rest : List String)
    (hvalid : ∀ p ∈ a0 :: rest, validatePath env.isdir p = none) :
    mainAfterFlags env (a0 :: rest) = dispatch env (a0 :: rest) := by
  have h : (a0 :: rest).findSome? (validatePath env.isdir) = none :=
    List.findSome?_eq_none_iff.mpr hvalid
  simp [mainAfterFlags, h]

theorem dispatch_single (env : Env) (p : String) :
    dispatch env [p]
      = { result := .exit 0,
          stdout := beginLines ++ [singleMsg, " "] ++ (build_fonts env.compile p).2.1,
          stderr := (build_fonts env.compile p).2.2,
          outcomes := [(build_fonts env.compile p).1],
          poolCreated := false,
          poolSize := none,
          emptyListErrorReported := false } := by
  simp [dispatch]

theorem dispatch_pool_spec (env : Env) (p0 p1 : String) (rest : List String)
    (hcpu : 1 ≤ env.cpuCount) :
    (dispatch env (p0 :: p1 :: rest)).result = MainResult.exit 0 ∧
    (dispatch env (p0 :: p1 :: rest)).poolCreated = true ∧
    (dispatch env (p0 :: p1 :: rest)).poolSize
      = some (min env.cpuCount (p0 :: p1 :: rest).length) ∧
    (dispatch env (p0 :: p1 :: rest)).outcomes
      = (p0 :: p1 :: rest).map (fun p => (build_fonts env.compile p).1) := by
  have hne1 : ¬ ((p0 :: p1 :: rest).length = 1) := by simp
  have hmin : (if rest.length + 1 + 1 < env.cpuCount
      then rest.length + 1 + 1 else env.cpuCount)
      = min env.cpuCount (rest.length + 1 + 1) := by
    rcases Nat.lt_or_ge (rest.length + 1 + 1) env.cpuCount with h | h
    · rw [if_pos h]; omega
    · rw [if_neg (by omega)]; omega
  have hproc0 : ¬ (min env.cpuCount (rest.length + 1 + 1) = 0) := by omega
  simp [dispatch, hne1, PROCESSES, hmin, hproc0, List.map_map]

theorem diagnosticHeader_append_ne_empty (p s : String) :
    diagnosticHeader p ++ s ≠ "" := by
  intro h
  have hlen := congrArg String.length h
  simp only [String.length_append, diagnosticHeader, lineSep] at hlen
  have h1 : ("[ERROR] The fontmake compile for ").length = 33 := by decide
  have h2 : ("" : String).length = 0 := rfl
  omega

theorem dispatch_emptyFlag (env : Env) (spl : List String) :
    (dispatch env spl).emptyListErrorReported = false := by
  simp only [dispatch]
  split
  · rfl
  · split <;> split <;> split <;> rfl

theorem mainAfterFlags_cons_emptyFlag (env : Env) (a0 : String) (rest : List String) :
    (mainAfterFlags env (a0 :: rest)).emptyListErrorReported = false := by
  simp only [mainAfterFlags]
  rw [if_neg (by simp)]
  split
  · rfl
  · exact dispatch_emptyFlag env (a0 :: rest)

/-- C10: the dedicated empty-list error branch of `main` (lines 81-86,
with its message `emptyListMsg`) is unreachable: on an empty argument
list the unconditional indexing `argv[0]` in the flag handling raises
`IndexError` first, and on every argument list the branch never
executes. -/
theorem empty_list_branch_unreachable (env : Env) (argv : List String) :
    (main env []).result = MainResult.indexError ∧
    (main env argv).emptyListErrorReported = false := by
  refine ⟨rfl, ?_⟩
  cases argv with
  | nil => rfl
  | cons a0 rest =>
      simp only [main]
      split
      · rfl
      · split
        · rfl
        · split
          · rfl
          · exact mainAfterFlags_cons_emptyFlag env a0 rest

/-- C4, the code evaluated at the failing input: on the empty argument
list, `main` raises `IndexError` at `argv[0]`: nothing is written to
either stream, no job runs, and no `sys.exit` status is produced by
the program itself — the dedicated empty-list error message is never
reported. -/
theorem empty_argv_raises_index_error :
    (main envOk []).result = MainResult.indexError ∧
    (main envOk []).stderr = [] ∧
    (main envOk []).stdout = [] ∧
    (main envOk []).outcomes = [] ∧
    (main envOk []).emptyListErrorReported = false :=
  ⟨rfl, rfl, rfl, rfl, rfl⟩

/-- C3 counterexample: when the first diagnostic write raises, the
except-handler of `build_fonts` exits with the lock still held — the
acquire/release pair has no try-finally scope, so release is not
guaranteed on all exit paths. -/
theorem lock_held_after_raising_write :
    (reportFailureHandler (fun _ => true)).raised = true ∧
    (reportFailureHandler (fun _ => true)).lockHeld = true :=
  ⟨rfl, rfl⟩

/-- C3 amended: the lock acquired before the diagnostic write is
released exactly on the normal exit path — it remains held precisely
when one of the write statements raised. -/
theorem lock_released_iff_no_write_raised (writeFails : Nat → Bool) :
    (reportFailureHandler writeFails).lockHeld
      = (reportFailureHandler writeFails).raised := by
  by_cases h0 : writeFails 0 <;> by_cases h1 : writeFails 1 <;>
    by_cases h2 : writeFails 2 <;> by_cases h3 : writeFails 3 <;>
    simp [reportFailureHandler, h0, h1, h2, h3]

/-- C1 counterexample: a run whose only job fails still terminates
with `sys.exit(0)` — the exit status does not reflect job failure. -/
theorem exit_zero_despite_job_failure :
    (main envFail ["b.ufo"]).result = MainResult.exit 0 ∧
    (main envFail ["b.ufo"]).outcomes.any (fun o => !o.succeeded) = true := by
  constructor <;> rfl

/-- C1 amended: once the flag handling and the precondition checks
pass, the process always terminates with `sys.exit(0)`, regardless of
how many jobs failed; a non-zero exit status (1) arises only from the
pre-dispatch precondition checks. -/
theorem exit_status_zero_after_dispatch (env : Env) (a0 : String) (rest : List String)
    (hflag : notFlag a0)
    (hvalid : ∀ p ∈ a0 :: rest, validatePath env.isdir p = none)
    (hcpu : 1 ≤ env.cpuCount) :
    (main env (a0 :: rest)).result = MainResult.exit 0 := by
  rw [main_cons_not_flag env a0 rest hflag, mainAfterFlags_all_valid env a0 rest hvalid]
  cases rest with
  | nil => rw [dispatch_single]
  | cons p1 rest2 => exact (dispatch_pool_spec env a0 p1 rest2 hcpu).1

theorem exit_status_zero_after_dispatch_witness :
    (main envFail ["a.ufo", "b.ufo"]).result = MainResult.exit 0 :=
  exit_status_zero_after_dispatch envFail "a.ufo" ["b.ufo"]
    (by decide) (by decide) (by decide)

/-- C2: every failure signalled by the compiler call is caught at the
`build_fonts` boundary: the job outcome has `succeeded = false` with a
non-empty diagnostic, and the reporter writes are non-empty;
`build_fonts` is a total function, so no such failure propagates past
it or terminates the worker. -/
theorem build_fonts_failure_boundary (compile : String → Option CompilerError)
    (p : String) (e : CompilerError) (h : compile p = some e) :
    (build_fonts compile p).1.succeeded = false ∧
    (∃ d, (build_fonts compile p).1.diagnostic = some d ∧ d ≠ "") ∧
    (build_fonts compile p).2.1 ≠ [] := by
  refine ⟨?_,
    ⟨diagnosticHeader p ++ e.message, ?_, diagnosticHeader_append_ne_empty p e.message⟩,
    ?_⟩ <;> simp [build_fonts, h]

theorem build_fonts_failure_boundary_witness :
    (build_fonts envFail.compile "b.ufo").1.succeeded = false ∧
    (∃ d, (build_fonts envFail.compile "b.ufo").1.diagnostic = some d ∧ d ≠ "") ∧
    (build_fonts envFail.compile "b.ufo").2.1 ≠ [] :=
  build_fonts_failure_boundary envFail.compile "b.ufo"
    { message := "bad glyph", traceback := "Traceback" } rfl

/-- C5: for a pooled run with requestedWorkers = 0 (the `PROCESSES`
constant), availableParallelism = `cpuCount` and jobCount = the length
of the path list, the worker count recorded at dispatch equals
min(cpuCount, jobCount) and is at least 1; the trace holds one such
value, computed once at dispatch. -/
theorem effective_worker_count (env : Env) (a0 p1 : String) (rest : List String)
    (hflag : notFlag a0)
    (hvalid : ∀ p ∈ a0 :: p1 :: rest, validatePath env.isdir p = none)
    (hcpu : 1 ≤ env.cpuCount) :
    PROCESSES = 0 ∧
    (main env (a0 :: p1 :: rest)).poolSize
      = some (min env.cpuCount (a0 :: p1 :: rest).length) ∧
    1 ≤ min env.cpuCount (a0 :: p1 :: rest).length := by
  refine ⟨rfl, ?_, ?_⟩
  · rw [main_cons_not_flag env a0 (p1 :: rest) hflag,
      mainAfterFlags_all_valid env a0 (p1 :: rest) hvalid]
    exact (dispatch_pool_spec env a0 p1 rest hcpu).2.2.1
  · have h : (a0 :: p1 :: rest).length = rest.length + 2 := by simp
    omega

theorem effective_worker_count_witness :
    PROCESSES = 0 ∧
    (main envFail ["a.ufo", "b.ufo"]).poolSize
      = some (min envFail.cpuCount (["a.ufo", "b.ufo"] : List String).length) ∧
    1 ≤ min envFail.cpuCount (["a.ufo", "b.ufo"] : List String).length :=
  effective_worker_count envFail "a.ufo" "b.ufo" []
    (by decide) (by decide) (by decide)

/-- C6: one job per input path — for every validated non-empty path
list the recorded outcomes are exactly the per-path results of
`build_fonts`, in order and duplicates included, so there are exactly
N of them; each entry depends only on its own path, so one failing job
neither reduces the attempted count below N nor disturbs the other
outcomes. -/
theorem one_outcome_per_path (env : Env) (a0 : String) (rest : List String)
    (hflag : notFlag a0)
    (hvalid : ∀ p ∈ a0 :: rest, validatePath env.isdir p = none)
    (hcpu : 1 ≤ env.cpuCount) :
    (main env (a0 :: rest)).outcomes
      = (a0 :: rest).map (fun p => (build_fonts env.compile p).1) ∧
    (main env (a0 :: rest)).outcomes.length = (a0 :: rest).length := by
  have h : (main env (a0 :: rest)).outcomes
      = (a0 :: rest).map (fun p => (build_fonts env.compile p).1) := by
    rw [main_cons_not_flag env a0 rest hflag,
      mainAfterFlags_all_valid env a0 rest hvalid]
    cases rest with
    | nil =>
        rw [dispatch_single]
        rfl
    | cons p1 rest2 => exact (dispatch_pool_spec env a0 p1 rest2 hcpu).2.2.2
  exact ⟨h, by rw [h, List.length_map]⟩

theorem one_outcome_per_path_witness :
    (main envFail ["a.ufo", "b.ufo"]).outcomes
      = (["a.ufo", "b.ufo"] : List String).map
          (fun p => (build_fonts envFail.compile p).1) ∧
    (main envFail ["a.ufo", "b.ufo"]).outcomes.length
      = (["a.ufo", "b.ufo"] : List String).length :=
  one_outcome_per_path envFail "a.ufo" ["b.ufo"]
    (by decide) (by decide) (by decide)

/-- C7: with exactly one validated path the dispatcher takes the fast
path: no pool is created, no pool size is recorded, and exactly one
job outcome — that of running `build_fonts` directly — is produced. -/
theorem single_path_fast_path (env : Env) (p : String)
    (hflag : notFlag p)
    (hvalid : validatePath env.isdir p = none) :
    (main env [p]).poolCreated = false ∧
    (main env [p]).poolSize = none ∧
    (main env [p]).outcomes = [(build_fonts env.compile p).1] := by
  have hv : ∀ q ∈ [p], validatePath env.isdir q = none := by
    intro q hq
    rw [List.mem_singleton] at hq
    subst hq
    exact hvalid
  rw [main_cons_not_flag env p [] hflag, mainAfterFlags_all_valid env p [] hv,
    dispatch_single]
  exact ⟨rfl, rfl, rfl⟩

theorem single_path_fast_path_witness :
    (main envFail ["b.ufo"]).poolCreated = false ∧
    (main envFail ["b.ufo"]).poolSize = none ∧
    (main envFail ["b.ufo"]).outcomes = [(build_fonts envFail.compile "b.ufo").1] :=
  single_path_fast_path envFail "b.ufo" (by decide) (by decide)

/-- C8 counterexample: the diagnostics of a failing job go to standard
output, not to the error stream: the error header line appears among
the stdout writes of `build_fonts` and not among its stderr writes. -/
theorem error_diagnostics_on_stdout :
    diagnosticHeader "b.ufo" ∈ (build_fonts envFail.compile "b.ufo").2.1 ∧
    diagnosticHeader "b.ufo" ∉ (build_fonts envFail.compile "b.ufo").2.2 := by
  constructor <;> decide

/-- C8 amended: progress/status lines go to standard output, but a
failing job splits its error diagnostics: the header line and the
exception message are written to standard output, and only the
traceback text is written to the error output stream. -/
theorem failing_job_stream_assignment (env : Env) (p : String) (e : CompilerError)
    (hflag : notFlag p)
    (hvalid : validatePath env.isdir p = none)
    (hfail : env.compile p = some e) :
    (main env [p]).stdout
      = beginLines ++ [singleMsg, " "] ++ [" ", diagnosticHeader p, e.message] ∧
    (main env [p]).stderr = [e.traceback] := by
  have hv : ∀ q ∈ [p], validatePath env.isdir q = none := by
    intro q hq
    rw [List.mem_singleton] at hq
    subst hq
    exact hvalid
  rw [main_cons_not_flag env p [] hflag, mainAfterFlags_all_valid env p [] hv,
    dispatch_single]
  constructor <;> simp [build_fonts, hfail]

theorem failing_job_stream_assignment_witness :
    (main envFail ["b.ufo"]).stdout
      = beginLines ++ [singleMsg, " "]
          ++ [" ", diagnosticHeader "b.ufo", "bad glyph"] ∧
    (main envFail ["b.ufo"]).stderr = ["Traceback"] :=
  failing_job_stream_assignment envFail "b.ufo"
    { message := "bad glyph", traceback := "Traceback" }
    (by decide) (by decide) rfl

/-- C9: a malformed or non-directory path among the arguments is
detected before any dispatch: no job outcome is produced, no pool is
created, nothing is printed to standard output, a diagnostic is
written to the error stream, and the process exits with status 1. -/
theorem precondition_error_aborts (env : Env) (a0 : String) (rest : List String)
    (hflag : notFlag a0)
    (hbad : ∃ p ∈ a0 :: rest, validatePath env.isdir p ≠ none) :
    (main env (a0 :: rest)).result = MainResult.exit 1 ∧
    (main env (a0 :: rest)).outcomes = [] ∧
    (main env (a0 :: rest)).poolCreated = false ∧
    (main env (a0 :: rest)).stdout = [] ∧
    (main env (a0 :: rest)).stderr ≠ [] := by
  rw [main_cons_not_flag env a0 rest hflag]
  have hsome : ((a0 :: rest).findSome? (validatePath env.isdir)).isSome := by
    rcases hbad with ⟨p, hp, hne⟩
    by_contra hc
    rw [Option.not_isSome_iff_eq_none, List.findSome?_eq_none_iff] at hc
    exact hne (hc p hp)
  rcases Option.isSome_iff_exists.mp hsome with ⟨err, herr⟩
  simp only [mainAfterFlags]
  rw [if_neg (by simp), herr]
  exact ⟨rfl, rfl, rfl, rfl, by simp⟩

theorem precondition_error_aborts_witness :
    (main envOk ["ab"]).result = MainResult.exit 1 ∧
    (main envOk ["ab"]).outcomes = [] ∧
    (main envOk ["ab"]).poolCreated = false ∧
    (main envOk ["ab"]).stdout = [] ∧
    (main envOk ["ab"]).stderr ≠ [] :=
  precondition_error_aborts envOk "ab" [] (by decide)
    ⟨"ab", by decide, by decide⟩

end FontmakeMP
